import Mathlib

/-!
Shallow embedding of the `tiff` crate (TIFF 6.0 reader/writer codec).

Sources embedded: `src/endian.rs`, `src/tag.rs`, `src/value.rs`/`src/reader.rs`
(the `TIFFValue` decoding impl), `src/reader.rs` (header parsing, IFD chain
iterator, reader facade) and `src/writer.rs` (layout and emission).

Modelling conventions:
* Machine integers are `Nat` (unsigned) or `Int` (signed); encoders reduce
  modulo `2^w` exactly where the Rust code truncates (`as u16`, `as u32`,
  `as i16`).
* Byte streams are `List Nat` together with a cursor, mirroring
  `std::io::Cursor<&[u8]>` (absolute/relative seeking, `read_exact`
  semantics: a short read is an error).
* The crate is written against a little-endian host: it uses the
  native-endianness conversions `u32::from_bytes` / `u32::to_bytes`
  (pre-stabilisation names of `from_ne_bytes` / `to_ne_bytes`).  The model
  fixes host order = little endian, which is the configuration the crate's
  own test suite runs on.
* Rust panics (out-of-range slice indexing, `copy_from_slice` on a chunk of
  the wrong length) are modelled as an explicit `panicked` error value that
  is propagated, never converted to `Option`/`None`.
* IEEE-754 values travel through the codec only as their integer bit
  patterns (`f32::from_bits` / `to_bits`), so `Float`/`Double` sequences are
  modelled by the bit patterns themselves.
-/

namespace Tiff

instance {ε α : Type} [DecidableEq ε] [DecidableEq α] : DecidableEq (Except ε α)
  | .error e, .error f =>
      if h : e = f then .isTrue (by rw [h]) else .isFalse (by simp [h])
  | .error _, .ok _ => .isFalse (by simp)
  | .ok _, .error _ => .isFalse (by simp)
  | .ok x, .ok y =>
      if h : x = y then .isTrue (by rw [h]) else .isFalse (by simp [h])

/-- Byte order, `src/endian.rs`. -/
inductive Endian
  | Big
  | Little
deriving DecidableEq, Repr

/-- `u16::to_be_bytes` (big-endian two-byte encoding, value reduced mod 2^16). -/
def u16beBytes (v : Nat) : List Nat := [v / 256 % 256, v % 256]

/-- `u16::to_le_bytes`. -/
def u16leBytes (v : Nat) : List Nat := [v % 256, v / 256 % 256]

/-- `u32::to_be_bytes` (value reduced mod 2^32). -/
def u32beBytes (v : Nat) : List Nat :=
  [v / 2 ^ 24 % 256, v / 2 ^ 16 % 256, v / 2 ^ 8 % 256, v % 256]

/-- `u32::to_le_bytes`. -/
def u32leBytes (v : Nat) : List Nat :=
  [v % 256, v / 2 ^ 8 % 256, v / 2 ^ 16 % 256, v / 2 ^ 24 % 256]

/-- `u64::to_be_bytes` (value reduced mod 2^64). -/
def u64beBytes (v : Nat) : List Nat :=
  [v / 2 ^ 56 % 256, v / 2 ^ 48 % 256, v / 2 ^ 40 % 256, v / 2 ^ 32 % 256,
   v / 2 ^ 24 % 256, v / 2 ^ 16 % 256, v / 2 ^ 8 % 256, v % 256]

/-- `u64::to_le_bytes`. -/
def u64leBytes (v : Nat) : List Nat :=
  [v % 256, v / 2 ^ 8 % 256, v / 2 ^ 16 % 256, v / 2 ^ 24 % 256,
   v / 2 ^ 32 % 256, v / 2 ^ 40 % 256, v / 2 ^ 48 % 256, v / 2 ^ 56 % 256]

/-- `usize as i16`: truncate to 16 bits and reinterpret as two's complement. -/
def toI16 (n : Nat) : Int :=
  let m := n % 65536
  if m < 32768 then (m : Int) else (m : Int) - 65536

/-- `u8 as i8`: reinterpret a byte as two's complement. -/
def toI8 (n : Nat) : Int :=
  let m := n % 256
  if m < 128 then (m : Int) else (m : Int) - 256

/-- `u32 as i32` (used when decoding SLong/SRational elements). -/
def toI32 (n : Nat) : Int :=
  let m := n % 4294967296
  if m < 2147483648 then (m : Int) else (m : Int) - 4294967296

/-- Two's-complement byte of an `i8` (`i8::to_le_bytes` = `to_be_bytes`). -/
def i8Bytes (v : Int) : List Nat := [(v % 256).toNat]

/-- `i16::to_be_bytes` / `to_le_bytes` via the 16-bit two's-complement image. -/
def i16Nat (v : Int) : Nat := (v % 65536).toNat

/-- `i32` two's-complement image, for the 4-byte encoders. -/
def i32Nat (v : Int) : Nat := (v % 4294967296).toNat

/-- `Endian::short_adjusted` (`src/endian.rs`): 2-byte encoding in this order. -/
def Endian.short_adjusted : Endian → Nat → List Nat
  | .Big, v => u16beBytes v
  | .Little, v => u16leBytes v

/-- `Endian::long_adjusted`: 4-byte encoding in this order. -/
def Endian.long_adjusted : Endian → Nat → List Nat
  | .Big, v => u32beBytes v
  | .Little, v => u32leBytes v

/-- `Endian::longlong_adjusted`: 8-byte encoding in this order. -/
def Endian.longlong_adjusted : Endian → Nat → List Nat
  | .Big, v => u64beBytes v
  | .Little, v => u64leBytes v

/-- `Endian::byte_adjusted` for `i8` values (identical bytes in both orders). -/
def Endian.byte_adjusted (_ : Endian) (v : Int) : List Nat := i8Bytes v

/-- `Endian::short_adjusted::<i16>`. -/
def Endian.short_adjusted_int (e : Endian) (v : Int) : List Nat :=
  e.short_adjusted (i16Nat v)

/-- `Endian::long_adjusted::<i32>`. -/
def Endian.long_adjusted_int (e : Endian) (v : Int) : List Nat :=
  e.long_adjusted (i32Nat v)

/-- `Endian::short_from_bytes` on a 2-byte slice (default 0 is unreachable:
every caller passes exactly two bytes). -/
def Endian.short_from_bytes : Endian → List Nat → Nat
  | .Big, [b0, b1] => b0 * 256 + b1
  | .Little, [b0, b1] => b1 * 256 + b0
  | _, _ => 0

/-- `Endian::long_from_bytes` on a 4-byte slice. -/
def Endian.long_from_bytes : Endian → List Nat → Nat
  | .Big, [b0, b1, b2, b3] => ((b0 * 256 + b1) * 256 + b2) * 256 + b3
  | .Little, [b0, b1, b2, b3] => ((b3 * 256 + b2) * 256 + b1) * 256 + b0
  | _, _ => 0

/-- `Endian::longlong_from_bytes` on an 8-byte slice. -/
def Endian.longlong_from_bytes : Endian → List Nat → Nat
  | .Big, [b0, b1, b2, b3, b4, b5, b6, b7] =>
      ((((((b0 * 256 + b1) * 256 + b2) * 256 + b3) * 256 + b4) * 256 + b5) * 256 + b6) * 256 + b7
  | .Little, [b0, b1, b2, b3, b4, b5, b6, b7] =>
      ((((((b7 * 256 + b6) * 256 + b5) * 256 + b4) * 256 + b3) * 256 + b2) * 256 + b1) * 256 + b0
  | _, _ => 0

/-- The tag registry, `src/tag.rs` (`tags_id_definition!` expansion): a closed
enumeration of well-known tags plus `Unknown(u16)`.  Equality is the derived
structural equality of the Rust enum (`#[derive(PartialEq, Eq)]`), under
which `Unknown n` is distinct from every named constructor. -/
inductive Tag
  | NewSubfileType
  | SubfileType
  | ImageWidth
  | ImageLength
  | BitsPerSample
  | Compression
  | PhotometricInterpretation
  | Threshholding
  | CellWidth
  | CellLength
  | FillOrder
  | ImageDescription
  | Make
  | Model
  | StripOffsets
  | Orientation
  | SamplesPerPixel
  | RowsPerStrip
  | StripByteCounts
  | MinSampleValue
  | MaxSampleValue
  | XResolution
  | YResolution
  | PlanarConfiguration
  | FreeOffsets
  | FreeByteCounts
  | GrayResponseUnit
  | GrayResponseCurve
  | ResolutionUnit
  | Software
  | DateTime
  | Artist
  | HostComputer
  | ColorMap
  | ExtraSamples
  | Copyright
  | Predictor
  | T4Options
  | T6Options
  | DocumentName
  | PageName
  | PageNumber
  | XPosition
  | YPosition
  | TileWidth
  | TileLength
  | TileOffsets
  | TileByteCounts
  | InkSet
  | NumberOfInks
  | InkNames
  | DotRange
  | TargetPrinter
  | HalftoneHints
  | SampleFormat
  | SMinSampleValue
  | SMaxSampleValue
  | WhitePoint
  | PrimaryChromaticities
  | TransferFunction
  | TransferRange
  | ReferenceBlackWhite
  | YCbCrCoefficients
  | YCbCrSubSampling
  | YCbCrPositioning
  | JPEGProc
  | JPEGInterchangeFormat
  | JPEGInterchangeFormatLength
  | JPEGRestartInterval
  | JPEGLosslessPredictors
  | JPEGPointTransforms
  | JPEGQTables
  | JPEGDCTables
  | JPEGACTables
  | Unknown (value : Nat)

/-- `impl From<u16> for Tag` (`src/tag.rs`): match against the known table,
otherwise `Unknown(n)`. -/
def Tag.fromU16 (value : Nat) : Tag :=
  match value with
  | 0xfe => .NewSubfileType
  | 0xff => .SubfileType
  | 0x0100 => .ImageWidth
  | 0x0101 => .ImageLength
  | 0x0102 => .BitsPerSample
  | 0x0103 => .Compression
  | 0x0106 => .PhotometricInterpretation
  | 0x0107 => .Threshholding
  | 0x0108 => .CellWidth
  | 0x0109 => .CellLength
  | 0x010a => .FillOrder
  | 0x010e => .ImageDescription
  | 0x010f => .Make
  | 0x0110 => .Model
  | 0x0111 => .StripOffsets
  | 0x0112 => .Orientation
  | 0x0115 => .SamplesPerPixel
  | 0x0116 => .RowsPerStrip
  | 0x0117 => .StripByteCounts
  | 0x0118 => .MinSampleValue
  | 0x0119 => .MaxSampleValue
  | 0x011a => .XResolution
  | 0x011b => .YResolution
  | 0x011c => .PlanarConfiguration
  | 0x0120 => .FreeOffsets
  | 0x0121 => .FreeByteCounts
  | 0x0122 => .GrayResponseUnit
  | 0x0123 => .GrayResponseCurve
  | 0x0128 => .ResolutionUnit
  | 0x0131 => .Software
  | 0x0132 => .DateTime
  | 0x013b => .Artist
  | 0x013c => .HostComputer
  | 0x0140 => .ColorMap
  | 0x0152 => .ExtraSamples
  | 0x8298 => .Copyright
  | 0x13d => .Predictor
  | 0x124 => .T4Options
  | 0x125 => .T6Options
  | 0x10D => .DocumentName
  | 0x11D => .PageName
  | 0x129 => .PageNumber
  | 0x11E => .XPosition
  | 0x11F => .YPosition
  | 0x142 => .TileWidth
  | 0x143 => .TileLength
  | 0x144 => .TileOffsets
  | 0x145 => .TileByteCounts
  | 0x14c => .InkSet
  | 0x14e => .NumberOfInks
  | 0x14d => .InkNames
  | 0x150 => .DotRange
  | 0x151 => .TargetPrinter
  | 0x141 => .HalftoneHints
  | 0x153 => .SampleFormat
  | 0x154 => .SMinSampleValue
  | 0x155 => .SMaxSampleValue
  | 0x318 => .WhitePoint
  | 0x319 => .PrimaryChromaticities
  | 0x301 => .TransferFunction
  | 0x156 => .TransferRange
  | 0x532 => .ReferenceBlackWhite
  | 0x211 => .YCbCrCoefficients
  | 0x212 => .YCbCrSubSampling
  | 0x213 => .YCbCrPositioning
  | 0x200 => .JPEGProc
  | 0x201 => .JPEGInterchangeFormat
  | 0x202 => .JPEGInterchangeFormatLength
  | 0x203 => .JPEGRestartInterval
  | 0x205 => .JPEGLosslessPredictors
  | 0x206 => .JPEGPointTransforms
  | 0x207 => .JPEGQTables
  | 0x208 => .JPEGDCTables
  | 0x209 => .JPEGACTables
  | n => .Unknown n

/-- Modelled from the spec: `Tag::tag_value` is called by the writer
(`src/writer.rs`) but its definition is not among the sources under `src/`;
per the spec (§4.2) it returns "the numeric identifier, used for comparison,
ordering and hashing", i.e. the inverse of the `From<u16>` table, and the
carried value for `Unknown`. -/
def Tag.tag_value : Tag → Nat
  | .NewSubfileType => 0xfe
  | .SubfileType => 0xff
  | .ImageWidth => 0x0100
  | .ImageLength => 0x0101
  | .BitsPerSample => 0x0102
  | .Compression => 0x0103
  | .PhotometricInterpretation => 0x0106
  | .Threshholding => 0x0107
  | .CellWidth => 0x0108
  | .CellLength => 0x0109
  | .FillOrder => 0x010a
  | .ImageDescription => 0x010e
  | .Make => 0x010f
  | .Model => 0x0110
  | .StripOffsets => 0x0111
  | .Orientation => 0x0112
  | .SamplesPerPixel => 0x0115
  | .RowsPerStrip => 0x0116
  | .StripByteCounts => 0x0117
  | .MinSampleValue => 0x0118
  | .MaxSampleValue => 0x0119
  | .XResolution => 0x011a
  | .YResolution => 0x011b
  | .PlanarConfiguration => 0x011c
  | .FreeOffsets => 0x0120
  | .FreeByteCounts => 0x0121
  | .GrayResponseUnit => 0x0122
  | .GrayResponseCurve => 0x0123
  | .ResolutionUnit => 0x0128
  | .Software => 0x0131
  | .DateTime => 0x0132
  | .Artist => 0x013b
  | .HostComputer => 0x013c
  | .ColorMap => 0x0140
  | .ExtraSamples => 0x0152
  | .Copyright => 0x8298
  | .Predictor => 0x13d
  | .T4Options => 0x124
  | .T6Options => 0x125
  | .DocumentName => 0x10D
  | .PageName => 0x11D
  | .PageNumber => 0x129
  | .XPosition => 0x11E
  | .YPosition => 0x11F
  | .TileWidth => 0x142
  | .TileLength => 0x143
  | .TileOffsets => 0x144
  | .TileByteCounts => 0x145
  | .InkSet => 0x14c
  | .NumberOfInks => 0x14e
  | .InkNames => 0x14d
  | .DotRange => 0x150
  | .TargetPrinter => 0x151
  | .HalftoneHints => 0x141
  | .SampleFormat => 0x153
  | .SMinSampleValue => 0x154
  | .SMaxSampleValue => 0x155
  | .WhitePoint => 0x318
  | .PrimaryChromaticities => 0x319
  | .TransferFunction => 0x301
  | .TransferRange => 0x156
  | .ReferenceBlackWhite => 0x532
  | .YCbCrCoefficients => 0x211
  | .YCbCrSubSampling => 0x212
  | .YCbCrPositioning => 0x213
  | .JPEGProc => 0x200
  | .JPEGInterchangeFormat => 0x201
  | .JPEGInterchangeFormatLength => 0x202
  | .JPEGRestartInterval => 0x203
  | .JPEGLosslessPredictors => 0x205
  | .JPEGPointTransforms => 0x206
  | .JPEGQTables => 0x207
  | .JPEGDCTables => 0x208
  | .JPEGACTables => 0x209
  | .Unknown n => n

/-- Injection used only to furnish decidable structural equality for `Tag`
(the derived Rust `PartialEq`/`Eq`): a named constructor is tagged `false`
together with its (pairwise distinct) numeric value, `Unknown n` is tagged
`true`. -/
def Tag.encodePair (t : Tag) : Bool × Nat :=
  match t with
  | .Unknown n => (true, n)
  | t => (false, t.tag_value)

/-- Left inverse of `Tag.encodePair`, reusing the `From<u16>` table. -/
def Tag.decodePair : Bool × Nat → Tag
  | (true, n) => .Unknown n
  | (false, v) => Tag.fromU16 v

instance : DecidableEq Tag := fun a b =>
  if h : a.encodePair = b.encodePair then
    .isTrue (by
      have ha : Tag.decodePair a.encodePair = a := by cases a <;> rfl
      have hb : Tag.decodePair b.encodePair = b := by cases b <;> rfl
      rw [← ha, ← hb, h])
  else
    .isFalse (fun hab => h (congrArg Tag.encodePair hab))

/-- `Rational<T>` (`src/value.rs`): an ordered numerator / denominator pair. -/
structure Rational (α : Type) where
  num : α
  denom : α
deriving DecidableEq, Repr

/-- `TIFFValue` (`src/value.rs`): the twelve-variant sum.  ASCII strings are
byte lists (Rust `String` is a UTF-8 byte vector); `Float`/`Double` carry
IEEE-754 bit patterns (the codec moves them only through
`from_bits`/`to_bits`). -/
inductive TIFFValue
  | Byte (val : List Nat)
  | Ascii (val : List (List Nat))
  | Short (val : List Nat)
  | Long (val : List Nat)
  | Rational (val : List (Rational Nat))
  | SByte (val : List Int)
  | Undefined (val : List Nat)
  | SShort (val : List Int)
  | SLong (val : List Int)
  | SRational (val : List (Rational Int))
  | Float (bits : List Nat)
  | Double (bits : List Nat)
deriving DecidableEq, Repr

/-- `TIFFValue::value_type_id` (`src/reader.rs`); the identical match opens
`TIFFValue::convert_to_entry` (`src/writer.rs`). -/
def TIFFValue.value_type_id : TIFFValue → Nat
  | .Byte _ => 1
  | .Ascii _ => 2
  | .Short _ => 3
  | .Long _ => 4
  | .Rational _ => 5
  | .SByte _ => 6
  | .Undefined _ => 7
  | .SShort _ => 8
  | .SLong _ => 9
  | .SRational _ => 10
  | .Float _ => 11
  | .Double _ => 12

/-- A seekable in-memory byte source: `std::io::Cursor` over the input
bytes.  `data` is immutable, `pos` is the cursor. -/
structure ByteStream where
  data : List Nat
  pos : Nat
deriving DecidableEq, Repr

/-- `std::io::SeekFrom` (only the two modes the codec uses). -/
inductive SeekFrom
  | start (n : Nat)
  | current (off : Int)

/-- `Seek::seek` on a cursor: seeking to any non-negative position succeeds
(also past the end); a negative target is an error (`none`).  Returns the
new absolute position, like the Rust API. -/
def ByteStream.seek (s : ByteStream) : SeekFrom → Option (Nat × ByteStream)
  | .start n => some (n, { s with pos := n })
  | .current off =>
      let np : Int := (s.pos : Int) + off
      if np < 0 then none
      else some (np.toNat, { s with pos := np.toNat })

/-- `Read::read_exact`: reads exactly `n` bytes or fails (`none`) when fewer
remain. -/
def ByteStream.read_exact (s : ByteStream) (n : Nat) : Option (List Nat × ByteStream) :=
  if s.pos + n ≤ s.data.length then
    some ((s.data.drop s.pos).take n, { s with pos := s.pos + n })
  else none

/-- `EndianReader::read_short` (`src/endian.rs`): read 2 bytes, decode in the
reader's byte order. -/
def readShort16 (e : Endian) (s : ByteStream) : Option (Nat × ByteStream) :=
  match s.read_exact 2 with
  | none => none
  | some (b, s1) => some (e.short_from_bytes b, s1)

/-- `EndianReader::read_long`: read 4 bytes, decode in the reader's byte
order. -/
def readLong32 (e : Endian) (s : ByteStream) : Option (Nat × ByteStream) :=
  match s.read_exact 4 with
  | none => none
  | some (b, s1) => some (e.long_from_bytes b, s1)

/-- A UTF-8 continuation byte (`10xxxxxx`). -/
def utf8Cont (b : Nat) : Bool := 0x80 ≤ b ∧ b ≤ 0xBF

/-- `String::from_utf8` validity (the Rust standard well-formedness check:
shortest-form encodings only, surrogate range excluded). -/
def utf8Valid : List Nat → Bool
  | [] => true
  | b :: rest =>
    if b ≤ 0x7F then utf8Valid rest
    else if 0xC2 ≤ b ∧ b ≤ 0xDF then
      match rest with
      | c1 :: r1 => utf8Cont c1 && utf8Valid r1
      | [] => false
    else if b = 0xE0 then
      match rest with
      | c1 :: c2 :: r2 => (0xA0 ≤ c1 ∧ c1 ≤ 0xBF) && utf8Cont c2 && utf8Valid r2
      | _ => false
    else if (0xE1 ≤ b ∧ b ≤ 0xEC) ∨ b = 0xEE ∨ b = 0xEF then
      match rest with
      | c1 :: c2 :: r2 => utf8Cont c1 && utf8Cont c2 && utf8Valid r2
      | _ => false
    else if b = 0xED then
      match rest with
      | c1 :: c2 :: r2 => (0x80 ≤ c1 ∧ c1 ≤ 0x9F) && utf8Cont c2 && utf8Valid r2
      | _ => false
    else if b = 0xF0 then
      match rest with
      | c1 :: c2 :: c3 :: r3 =>
          (0x90 ≤ c1 ∧ c1 ≤ 0xBF) && utf8Cont c2 && utf8Cont c3 && utf8Valid r3
      | _ => false
    else if 0xF1 ≤ b ∧ b ≤ 0xF3 then
      match rest with
      | c1 :: c2 :: c3 :: r3 => utf8Cont c1 && utf8Cont c2 && utf8Cont c3 && utf8Valid r3
      | _ => false
    else if b = 0xF4 then
      match rest with
      | c1 :: c2 :: c3 :: r3 =>
          (0x80 ≤ c1 ∧ c1 ≤ 0x8F) && utf8Cont c2 && utf8Cont c3 && utf8Valid r3
      | _ => false
    else false

/-- `slice::split(|e| *e == sep)`: the pieces between separator bytes; the
empty slice splits to one empty piece, a trailing separator yields a
trailing empty piece. -/
def splitOnByte (sep : Nat) : List Nat → List (List Nat)
  | [] => [[]]
  | a :: rest =>
    let r := splitOnByte sep rest
    if a = sep then [] :: r
    else
      match r with
      | h :: t => (a :: h) :: t
      | [] => [[a]]

/-- `slice::chunks(2)` followed by `copy_from_slice` into a 2-byte buffer:
yields the consecutive pairs, or `none` for the panic `copy_from_slice`
raises on a trailing chunk of length 1. -/
def chunkPairs : List Nat → Option (List (List Nat))
  | [] => some []
  | a :: b :: rest => (chunkPairs rest).map (fun l => [a, b] :: l)
  | [_] => none

/-- `slice::chunks(4)` + `copy_from_slice` (panic on a short trailing chunk). -/
def chunkQuads : List Nat → Option (List (List Nat))
  | [] => some []
  | a :: b :: c :: d :: rest => (chunkQuads rest).map (fun l => [a, b, c, d] :: l)
  | _ => none

/-- `slice::chunks(8)` + `copy_from_slice` (panic on a short trailing chunk). -/
def chunkOcts : List Nat → Option (List (List Nat))
  | [] => some []
  | a :: b :: c :: d :: e :: f :: g :: h :: rest =>
      (chunkOcts rest).map (fun l => [a, b, c, d, e, f, g, h] :: l)
  | _ => none

/-- `elements.chunks(2)` over decoded longs followed by indexing `e[0]`,
`e[1]` (`TIFFValue::read_rational`): pairs the elements, `none` for the
index panic on an odd trailing chunk. -/
def pairElems {α : Type} : List α → Option (List (α × α))
  | [] => some []
  | a :: b :: rest => (pairElems rest).map (fun l => (a, b) :: l)
  | [_] => none

/-- `IFDEntry` (`src/reader.rs`): the raw 12-byte directory record after
endian decoding. -/
structure IFDEntry where
  tag : Tag
  value_type : Nat
  count : Nat
  value_offset : Nat
deriving DecidableEq

/-- Insert into a `HashMap` modelled as an association list: replace the
binding when the (structurally equal) key is present, else append. -/
def insertAssoc {β : Type} (k : Tag) (v : β) : List (Tag × β) → List (Tag × β)
  | [] => [(k, v)]
  | (k0, v0) :: rest =>
      if k0 = k then (k, v) :: rest else (k0, v0) :: insertAssoc k v rest

/-- `HashMap::get` on the association list. -/
def lookupAssoc {β : Type} (k : Tag) : List (Tag × β) → Option β
  | [] => none
  | (k0, v0) :: rest => if k0 = k then some v0 else lookupAssoc k rest

/-- `IFD` (`src/reader.rs`): a map from `Tag` to its raw entry. -/
structure IFD where
  entries : List (Tag × IFDEntry)
deriving DecidableEq

/-- `IFD::get_entry_from_tag`. -/
def IFD.get_entry_from_tag (ifd : IFD) (t : Tag) : Option IFDEntry :=
  lookupAssoc t ifd.entries

/-- Error kinds of the reader (`error_chain!` in `src/reader.rs`) plus an
explicit marker for Rust panics, which propagate past every `.ok()?` /
`Result` conversion. -/
inductive RdErr
  | io
  | asciiFormat
  | invalidFile
  | dirIndexOutOfBounds
  | panicked
deriving DecidableEq, Repr

/-- `TIFFValue::read_n_bytes` (`src/reader.rs`): when `size <= 4` the payload
is taken from `entry.value_offset.to_bytes()` — the **native-endian**
(little-endian host) byte image of the already endian-decoded u32, all four
bytes, ignoring `size`; otherwise seek to the offset and read `size` bytes. -/
def TIFFValue.read_n_bytes (s : ByteStream) (entry : IFDEntry) (size : Nat) :
    Except RdErr (List Nat) :=
  if size ≤ 4 then .ok (u32leBytes entry.value_offset)
  else
    match s.seek (.start entry.value_offset) with
    | none => .error .io
    | some (_, s1) =>
        match s1.read_exact size with
        | none => .error .io
        | some (b, _) => .ok b

/-- `TIFFValue::read_ascii` (`src/reader.rs`): reads `entry.count` bytes and
splits them on the byte `b'0'` (0x30 — the source splits on the ASCII digit
zero, not on NUL); each piece must pass `String::from_utf8`. -/
def TIFFValue.read_ascii (s : ByteStream) (entry : IFDEntry) :
    Except RdErr (List (List Nat)) :=
  match TIFFValue.read_n_bytes s entry entry.count with
  | .error e => .error e
  | .ok bytes =>
      let pieces := splitOnByte 0x30 bytes
      if pieces.all utf8Valid then .ok pieces else .error .asciiFormat

/-- `TIFFValue::read_short` (`src/reader.rs`), element type u16: reads
`count * 2` bytes (inline slots deliver all four slot bytes), reverses them
for a big-endian file when `size <= 4`, then decodes 2-byte chunks.  The
result for the `i16` instantiation is obtained by reinterpreting these
values (`toI16`). -/
def TIFFValue.read_short_raw (s : ByteStream) (entry : IFDEntry) (endian : Endian) :
    Except RdErr (List Nat) :=
  let size := entry.count * 2
  match TIFFValue.read_n_bytes s entry size with
  | .error e => .error e
  | .ok bytes =>
      let bytes := if endian = .Big ∧ size ≤ 4 then bytes.reverse else bytes
      match chunkPairs bytes with
      | none => .error .panicked
      | some cs => .ok (cs.map (endian.short_from_bytes))

/-- `TIFFValue::read_long` (`src/reader.rs`), element type u32 (also carries
the `i32` and `f32`-bits instantiations via reinterpretation). -/
def TIFFValue.read_long_raw (s : ByteStream) (entry : IFDEntry) (endian : Endian) :
    Except RdErr (List Nat) :=
  let size := entry.count * 4
  match TIFFValue.read_n_bytes s entry size with
  | .error e => .error e
  | .ok bytes =>
      let bytes := if endian = .Big ∧ size ≤ 4 then bytes.reverse else bytes
      match chunkQuads bytes with
      | none => .error .panicked
      | some cs => .ok (cs.map (endian.long_from_bytes))

/-- `TIFFValue::read_long_long` (`src/reader.rs`), element type u64 (carries
the `f64`-bits instantiation). -/
def TIFFValue.read_long_long_raw (s : ByteStream) (entry : IFDEntry) (endian : Endian) :
    Except RdErr (List Nat) :=
  let size := entry.count * 8
  match TIFFValue.read_n_bytes s entry size with
  | .error e => .error e
  | .ok bytes =>
      let bytes := if endian = .Big ∧ size ≤ 8 then bytes.reverse else bytes
      match chunkOcts bytes with
      | none => .error .panicked
      | some cs => .ok (cs.map (endian.longlong_from_bytes))

/-- `TIFFValue::read_rational` (`src/reader.rs`): reads `count * 8` bytes (no
big-endian slot reversal here), decodes 4-byte chunks, then pairs them via
`chunks(2)` and `e[0]`/`e[1]` (which panics on an odd number of longs). -/
def TIFFValue.read_rational_raw (s : ByteStream) (entry : IFDEntry) (endian : Endian) :
    Except RdErr (List (Tiff.Rational Nat)) :=
  let size := entry.count * 8
  match TIFFValue.read_n_bytes s entry size with
  | .error e => .error e
  | .ok bytes =>
      match chunkQuads bytes with
      | none => .error .panicked
      | some cs =>
          let elements := cs.map (endian.long_from_bytes)
          match pairElems elements with
          | none => .error .panicked
          | some ps => .ok (ps.map (fun p => ⟨p.1, p.2⟩))

/-- `TIFFValue::new_from_entry` (`src/reader.rs`): dispatch on the wire type
code; codes outside 1..12 (and 7) fall to `Undefined`. -/
def TIFFValue.new_from_entry (s : ByteStream) (entry : IFDEntry) (endian : Endian) :
    Except RdErr TIFFValue :=
  match entry.value_type with
  | 1 => (TIFFValue.read_n_bytes s entry entry.count).map .Byte
  | 2 => (TIFFValue.read_ascii s entry).map .Ascii
  | 3 => (TIFFValue.read_short_raw s entry endian).map .Short
  | 4 => (TIFFValue.read_long_raw s entry endian).map .Long
  | 5 => (TIFFValue.read_rational_raw s entry endian).map (fun l => TIFFValue.Rational l)
  | 6 => (TIFFValue.read_n_bytes s entry entry.count).map
      (fun bs => .SByte (bs.map toI8))
  | 8 => (TIFFValue.read_short_raw s entry endian).map
      (fun l => .SShort (l.map toI16))
  | 9 => (TIFFValue.read_long_raw s entry endian).map
      (fun l => .SLong (l.map toI32))
  | 10 => (TIFFValue.read_rational_raw s entry endian).map
      (fun l => .SRational (l.map (fun r => ⟨toI32 r.num, toI32 r.denom⟩)))
  | 11 => (TIFFValue.read_long_raw s entry endian).map .Float
  | 12 => (TIFFValue.read_long_long_raw s entry endian).map .Double
  | _ => (TIFFValue.read_n_bytes s entry entry.count).map .Undefined

/-- `IFDIterator` (`src/reader.rs`): the wrapped endian reader, the offset of
the entry to visit next, and the `position` field updated with each seek
result. -/
structure IFDIter where
  stream : ByteStream
  endian : Endian
  next_entry : Nat
  position : Nat
deriving DecidableEq

/-- `IFDIterator::new`: seeks the underlying reader to 0 and starts with
`position = 0`. -/
def IFDIter.new (s : ByteStream) (first_ifd_offset : Nat) (endian : Endian) : IFDIter :=
  { stream := { s with pos := 0 }, endian := endian,
    next_entry := first_ifd_offset, position := 0 }

/-- The entry-reading loop inside `IFDIterator::next`: reads `n` raw 12-byte
records, inserting each into the per-directory map (keyed by the decoded
`Tag`, last writer wins). -/
def readEntries (e : Endian) : Nat → ByteStream → List (Tag × IFDEntry) →
    Option (List (Tag × IFDEntry) × ByteStream)
  | 0, s, acc => some (acc, s)
  | n + 1, s, acc =>
      match readShort16 e s with
      | none => none
      | some (tag, s1) =>
          match readShort16 e s1 with
          | none => none
          | some (value_type_raw, s2) =>
              match readLong32 e s2 with
              | none => none
              | some (count, s3) =>
                  match readLong32 e s3 with
                  | none => none
                  | some (value_offset, s4) =>
                      let tag_value := Tag.fromU16 tag
                      let entry : IFDEntry :=
                        { tag := tag_value, value_type := value_type_raw,
                          count := count, value_offset := value_offset }
                      readEntries e n s4 (insertAssoc tag_value entry acc)

/-- `IFDIterator::next` (`src/reader.rs`).  The first iteration
(`position == 0`) seeks to `SeekFrom::Start(next_entry)`; every later one
seeks to `SeekFrom::Current(next_entry)` — a **relative** seek from wherever
the cursor currently is.  Returns the parsed IFD (or `none` on any failure
or a zero entry count) together with the mutated iterator. -/
def IFDIter.next (it : IFDIter) : Option IFD × IFDIter :=
  let sf := if it.position = 0 then SeekFrom.start it.next_entry
            else SeekFrom.current (it.next_entry : Int)
  match it.stream.seek sf with
  | none => (none, it)
  | some (p, s1) =>
      let it1 : IFDIter := { it with stream := s1, position := p }
      match readShort16 it1.endian it1.stream with
      | none => (none, it1)
      | some (entry_count, s2) =>
          if entry_count < 1 then (none, { it1 with stream := s2 })
          else
            match readEntries it1.endian entry_count s2 [] with
            | none => (none, { it1 with stream := s2 })
            | some (map, s3) =>
                match readLong32 it1.endian s3 with
                | none => (none, { it1 with stream := s3 })
                | some (nxt, s4) =>
                    (some { entries := map },
                     { it1 with stream := s4, next_entry := nxt })

/-- `Iterator::collect` over the IFD iterator.  The fuel `data.length + 1`
over-approximates the possible number of yields: every successfully parsed
IFD consumes at least 18 bytes of the stream at a strictly increasing
position, so a stream of `n` bytes yields at most `n / 18 + 1` directories.
(On pathological self-referencing inputs, where the Rust iterator would
loop forever, the model instead stops after the fuel is spent; no claim
exercises such an input.) -/
def collectIFDs : Nat → IFDIter → List IFD
  | 0, _ => []
  | fuel + 1, it =>
      match IFDIter.next it with
      | (none, _) => []
      | (some ifd, it2) => ifd :: collectIFDs fuel it2

/-- `TIFFReader` (`src/reader.rs`).  The stored cursor position is
irrelevant after construction: every later read seeks absolutely first. -/
structure TIFFReader where
  inner : ByteStream
  ifds : List IFD
  endian : Endian
  current_directory_index : Nat
deriving DecidableEq

/-- `TIFFReader::new` (`src/reader.rs`): reads the byte-order magic
(`u16::to_be(u16::from_bytes(..))` on a little-endian host is a big-endian
decode of the two bytes), validates the magic number 42 in the discovered
order, reads the first-IFD offset, collects the directory chain, and
requires at least one directory. -/
def TIFFReader.new (data : List Nat) : Except RdErr TIFFReader :=
  let s : ByteStream := { data := data, pos := 0 }
  match s.read_exact 2 with
  | none => .error .io
  | some (ob, s1) =>
      let order_raw :=
        match ob with
        | [b0, b1] => b0 * 256 + b1
        | _ => 0
      let order : Option Endian :=
        if order_raw = 0x4949 then some .Little
        else if order_raw = 0x4D4D then some .Big
        else none
      match order with
      | none => .error .invalidFile
      | some order =>
          match s1.read_exact 2 with
          | none => .error .io
          | some (mb, s2) =>
              let tiff_magic :=
                match order with
                | .Big => Endian.short_from_bytes .Big mb
                | .Little => Endian.short_from_bytes .Little mb
              if tiff_magic ≠ 42 then .error .invalidFile
              else
                match s2.read_exact 4 with
                | none => .error .io
                | some (offb, s3) =>
                    let offset :=
                      match order with
                      | .Big => Endian.long_from_bytes .Big offb
                      | .Little => Endian.long_from_bytes .Little offb
                    let ifds := collectIFDs (data.length + 1)
                        (IFDIter.new s3 offset order)
                    if ifds.isEmpty then .error .invalidFile
                    else
                      .ok { inner := { data := data, pos := 0 }, ifds := ifds,
                            endian := order, current_directory_index := 0 }

/-- The `Field` capability (`src/tag.rs`): a statically known tag together
with value decoding and encoding.  `decode_from_value` may panic in Rust
(slice indexing), hence the explicit `Except`. -/
structure FieldDef (α : Type) where
  tag : Tag
  decode_from_value : TIFFValue → Except RdErr (Option α)
  encode_to_value : α → Option TIFFValue

/-- `TIFFReader::get_field` (`src/reader.rs`): looks the tag up in the
current directory, decodes the entry's value on demand (`.ok()?` turns
recoverable decoding errors into absence — but a panic aborts), and applies
the field's decoder. -/
def TIFFReader.get_field {α : Type} (r : TIFFReader) (F : FieldDef α) :
    Except RdErr (Option α) :=
  match (r.ifds.getD r.current_directory_index { entries := [] }).get_entry_from_tag F.tag with
  | none => .ok none
  | some entry =>
      match TIFFValue.new_from_entry r.inner entry r.endian with
      | .error .panicked => .error .panicked
      | .error _ => .ok none
      | .ok v => F.decode_from_value v

/-- `TIFFReader::set_directory_index`. -/
def TIFFReader.set_directory_index (r : TIFFReader) (index : Nat) :
    Except RdErr TIFFReader :=
  if index > r.ifds.length - 1 then .error .dirIndexOutOfBounds
  else .ok { r with current_directory_index := index }

/-- `el[i]` on a Rust slice: the element, or a panic when out of range. -/
def listIdx {α : Type} (l : List α) (i : Nat) : Except RdErr α :=
  match l[i]? with
  | some x => .ok x
  | none => .error .panicked

/-- `ImageWidth` (`src/tag.rs`, `short_long_value!` expansion):
`decode_from_value` accepts `Short` or `Long` and yields `el[0] as u32`;
`encode_to_value` chooses `Short` when the value fits in 16 bits, else
`Long`. -/
def ImageWidthField : FieldDef Nat where
  tag := Tag.ImageWidth
  decode_from_value v :=
    match v with
    | .Short el => (listIdx el 0).map (fun x => some x)
    | .Long el => (listIdx el 0).map (fun x => some x)
    | _ => .ok none
  encode_to_value w :=
    if w ≤ 65535 then some (.Short [w]) else some (.Long [w])

/-- The `SubfileType` field's enum (`src/tag.rs`). -/
inductive SubfileTypeKind
  | FullResolutionImage
  | ReducedResolutionImage
  | SinglePageImage
deriving DecidableEq, Repr

/-- `SubfileType` (`src/tag.rs`): `decode_from_value` checks the guards of
the source in order — `el[0] == 1`, `el[0] == 2`, then **`el[3] == 3`**
(the source indexes position 3, not 0, in the third arm); `encode_to_value`
emits the numeric code as a one-element `Short`. -/
def SubfileTypeField : FieldDef SubfileTypeKind where
  tag := Tag.SubfileType
  decode_from_value v :=
    match v with
    | .Short el => do
        let e0 ← listIdx el 0
        if e0 = 1 then .ok (some .FullResolutionImage)
        else if e0 = 2 then .ok (some .ReducedResolutionImage)
        else do
          let e3 ← listIdx el 3
          if e3 = 3 then .ok (some .SinglePageImage) else .ok none
    | _ => .ok none
  encode_to_value k :=
    some (.Short [match k with
      | .FullResolutionImage => 1
      | .ReducedResolutionImage => 2
      | .SinglePageImage => 3])

/-- Writer error kinds (`error_chain!` in `src/writer.rs`) plus the marker
for Rust panics raised by the directory-index checks. -/
inductive WrErr
  | EncodingError
  | OutOfBounds
  | panicked
deriving DecidableEq, Repr

/-- `WritingEntryPayload` (`src/writer.rs`): a serialised entry pending
layout. -/
structure WritingEntryPayload where
  tag : Tag
  count : Nat
  payload : List Nat
  value_type : Nat
deriving DecidableEq

/-- `TIFFWriter` (`src/writer.rs`). -/
structure TIFFWriter where
  write_buff : List Nat
  endian : Endian
  ifds : List (List (Tag × WritingEntryPayload))
  position : Nat
  current_index : Nat
deriving DecidableEq

/-- `TIFFWriter::new`: one empty directory, position 0. -/
def TIFFWriter.new (endian : Endian) : TIFFWriter :=
  { write_buff := [], ifds := [[]], position := 0, current_index := 0,
    endian := endian }

/-- `TIFFWriter::insert_directory_at_index`: panics past the end. -/
def TIFFWriter.insert_directory_at_index (w : TIFFWriter) (ifd : Nat) :
    Except WrErr TIFFWriter :=
  if ifd > w.ifds.length then .error .panicked
  else .ok { w with ifds := w.ifds.take ifd ++ [[]] ++ w.ifds.drop ifd }

/-- `TIFFWriter::set_current_directory_index`: panics out of range. -/
def TIFFWriter.set_current_directory_index (w : TIFFWriter) (index : Nat) :
    Except WrErr TIFFWriter :=
  if index > w.ifds.length - 1 then .error .panicked
  else .ok { w with current_index := index }

/-- `str::is_ascii` on a byte string. -/
def isAsciiStr (s : List Nat) : Bool := s.all (· < 0x80)

/-- `TIFFValue::convert_to_entry` (`src/writer.rs`): serialises a value in
the writer's byte order.  Note the Ascii arm: the source *errors when every
string is ASCII* (`if val.iter().all(|s| s.is_ascii()) { return Err }`) and
otherwise concatenates `String::into_bytes` with **no** NUL terminators;
`count` is the number of strings. -/
def TIFFValue.convert_to_entry (v : TIFFValue) (tag : Tag) (endian : Endian) :
    Except WrErr WritingEntryPayload :=
  let value_type := v.value_type_id
  match v with
  | .Byte val => .ok ⟨tag, val.length, val, value_type⟩
  | .Ascii val =>
      if val.all isAsciiStr then .error .EncodingError
      else .ok ⟨tag, val.length, val.flatten, value_type⟩
  | .Short val =>
      .ok ⟨tag, val.length, val.flatMap (endian.short_adjusted), value_type⟩
  | .Long val =>
      .ok ⟨tag, val.length, val.flatMap (endian.long_adjusted), value_type⟩
  | .Rational val =>
      .ok ⟨tag, val.length,
        val.flatMap (fun el => endian.long_adjusted el.num ++ endian.long_adjusted el.denom),
        value_type⟩
  | .SByte val =>
      .ok ⟨tag, val.length, val.flatMap (endian.byte_adjusted), value_type⟩
  | .Undefined val => .ok ⟨tag, val.length, val, value_type⟩
  | .SShort val =>
      .ok ⟨tag, val.length, val.flatMap (endian.short_adjusted_int), value_type⟩
  | .SLong val =>
      .ok ⟨tag, val.length, val.flatMap (endian.long_adjusted_int), value_type⟩
  | .SRational val =>
      .ok ⟨tag, val.length,
        val.flatMap (fun el =>
          endian.long_adjusted_int el.num ++ endian.long_adjusted_int el.denom),
        value_type⟩
  | .Float bits =>
      .ok ⟨tag, bits.length, bits.flatMap (endian.long_adjusted), value_type⟩
  | .Double bits =>
      .ok ⟨tag, bits.length, bits.flatMap (endian.longlong_adjusted), value_type⟩

/-- `TIFFWriter::set_directory_field_for_tag` (`src/writer.rs`): serialise
and store under the tag in the current directory (encoding failures map to
`EncodingError`; the vector index panics if `current_index` were out of
range). -/
def TIFFWriter.set_directory_field_for_tag (w : TIFFWriter) (tag : Tag)
    (value : TIFFValue) : Except WrErr TIFFWriter :=
  match value.convert_to_entry tag w.endian with
  | .error _ => .error .EncodingError
  | .ok entry =>
      if w.current_index < w.ifds.length then
        .ok { w with ifds :=
          (w.ifds.set w.current_index
            (insertAssoc tag entry (w.ifds.getD w.current_index []))) }
      else .error .panicked

/-- `TIFFWriter::set_field` (`src/writer.rs`): encodes the strongly typed
field to a value, then stores it under `F::tag()`. -/
def TIFFWriter.set_field {α : Type} (w : TIFFWriter) (F : FieldDef α) (f : α) :
    Except WrErr TIFFWriter :=
  match F.encode_to_value f with
  | none => .error .EncodingError
  | some value => w.set_directory_field_for_tag F.tag value

/-- The comparison of `TIFFWriter::write`'s entry sort:
`a.0.tag_value().cmp(&b.0.tag_value())` as a ≤ relation on the map's
(key, payload) pairs. -/
def tagLe (a b : Tag × WritingEntryPayload) : Prop :=
  a.1.tag_value ≤ b.1.tag_value

instance : DecidableRel tagLe := fun a b => Nat.decLe a.1.tag_value b.1.tag_value

/-- The entry-sorting step of `TIFFWriter::write`:
`sorted_entries.sort_by(|a, b| a.0.tag_value().cmp(&b.0.tag_value()))` — a
stable sort of the directory's (key, payload) pairs by the key's numeric
value (any stable sort computes the same list; the model uses insertion
sort). -/
def sortEntries (d : List (Tag × WritingEntryPayload)) :
    List (Tag × WritingEntryPayload) :=
  d.insertionSort tagLe

instance : IsTotal (Tag × WritingEntryPayload) tagLe :=
  ⟨fun a b => Nat.le_total a.1.tag_value b.1.tag_value⟩

instance : IsTrans (Tag × WritingEntryPayload) tagLe :=
  ⟨fun _ _ _ hab hbc => Nat.le_trans hab hbc⟩

/-- `write_ifd_tag` (`src/writer.rs`): emits the 12-byte records.  The slot
is inline (left-justified, zero-padded) when
`4i16 - (payload.len() as i16) >= 0` — note the `as i16` truncation of the
length — otherwise the current out-of-line cursor is written and advanced,
and the entry is queued.  Returns the emitted bytes and the queue. -/
def write_ifd_tag (position : Nat) (endian : Endian)
    (ifd : List WritingEntryPayload) : List Nat × List WritingEntryPayload :=
  go (position + ifd.length * 12 + 4) ifd
where
  go (next_data_cursor : Nat) : List WritingEntryPayload →
      List Nat × List WritingEntryPayload
    | [] => ([], [])
    | entry :: rest =>
        let tagB := endian.short_adjusted entry.tag.tag_value
        let typeB := endian.short_adjusted entry.value_type
        let countB := endian.long_adjusted entry.count
        let diff : Int := 4 - toI16 entry.payload.length
        if 0 ≤ diff then
          let slot := entry.payload ++ List.replicate diff.toNat 0
          let (bs, big) := go next_data_cursor rest
          (tagB ++ typeB ++ countB ++ slot ++ bs, big)
        else
          let slot := endian.long_adjusted next_data_cursor
          let (bs, big) := go (next_data_cursor + entry.payload.length) rest
          (tagB ++ typeB ++ countB ++ slot ++ bs, entry :: big)

/-- Result of `TIFFWriter::write`: either the buffer flushed to the sink via
`write_all`, or the silent early `return Ok(())` taken when a directory
starts past `1 << 31` — which flushes **nothing**. -/
inductive WriteOutcome
  | flushed (bytes : List Nat)
  | aborted
deriving DecidableEq

/-- The per-directory loop of `TIFFWriter::write` (`src/writer.rs`):
bounds check (early `Ok` return), even alignment, entry count, sorted
records via `write_ifd_tag`, the next-IFD offset
(`position + all_big.len() + 1`, rounded up to even, 0 for the last
directory), then the queued out-of-line payloads. -/
def writeLoop (endian : Endian) (total : Nat) :
    Nat → List (List (Tag × WritingEntryPayload)) → List Nat → Nat → WriteOutcome
  | _, [], buff, _ => .flushed buff
  | index, ifd :: rest, buff, position =>
      if position + 1 > 2 ^ 31 then .aborted
      else
        let (buff, position) :=
          if position % 2 ≠ 0 then (buff ++ [0], position + 1) else (buff, position)
        let buff := buff ++ endian.short_adjusted ifd.length
        let position := position + 2
        let entries := (sortEntries ifd).map (fun p => p.2)
        let entries_size := entries.length * 12
        let (recs, big_values) := write_ifd_tag position endian entries
        let buff := buff ++ recs
        let position := position + entries_size
        let all_big := big_values.flatMap (fun v => v.payload)
        let next_available_space :=
          if index = total - 1 then 0 else position + all_big.length + 1
        let next_available_space :=
          if next_available_space % 2 ≠ 0 then next_available_space + 1
          else next_available_space
        let buff := buff ++ endian.long_adjusted next_available_space
        let position := position + 4
        let buff := buff ++ all_big
        let position := position + all_big.length
        writeLoop endian total (index + 1) rest buff position

/-- `TIFFWriter::write` (`src/writer.rs`): header magic, the constant
first-IFD offset 8, then the directory loop; on normal completion the whole
buffer is flushed to the sink. -/
def TIFFWriter.write (w : TIFFWriter) : WriteOutcome :=
  let order_bytes : Nat := match w.endian with
    | .Little => 0x4949
    | .Big => 0x4D4D
  let magic_byte : List Nat := match w.endian with
    | .Little => u16leBytes 42
    | .Big => u16beBytes 42
  let buff := w.endian.short_adjusted order_bytes ++ magic_byte
  let buff := buff ++ w.endian.long_adjusted 8
  writeLoop w.endian w.ifds.length 0 w.ifds buff 8

/-!  Concrete instances used to settle the claims. -/

/-- Observation helper (wire format, spec §3/§6): the 16-bit tag number of
the `i`-th 12-byte entry record of the IFD whose entry count starts at
`ifdStart`. -/
def wireEntryTag (bytes : List Nat) (e : Endian) (ifdStart i : Nat) : Nat :=
  e.short_from_bytes ((bytes.drop (ifdStart + 2 + 12 * i)).take 2)

/-- The writer API chain of spec scenario 2: a fresh big-endian writer with
the single field ImageWidth = 170. -/
def c2writerE : Except WrErr TIFFWriter :=
  (TIFFWriter.new .Big).set_field ImageWidthField 170

/-- The writer state `c2writerE` reaches. -/
def c2writer : TIFFWriter :=
  { write_buff := [], endian := .Big,
    ifds := [[(Tag.ImageWidth, ⟨Tag.ImageWidth, 1, [0x00, 0xAA], 3⟩)]],
    position := 0, current_index := 0 }

/-- The 26 bytes of spec scenario 2 (minimal valid big-endian file). -/
def c2bytes : List Nat :=
  [0x4D, 0x4D, 0x00, 0x2A, 0x00, 0x00, 0x00, 0x08,
   0x00, 0x01,
   0x01, 0x00, 0x00, 0x03, 0x00, 0x00, 0x00, 0x01, 0x00, 0xAA, 0x00, 0x00,
   0x00, 0x00, 0x00, 0x00]

/-- The writer API chain of spec scenario 4 (truncated to two directories):
directory 0 holds ImageWidth = 100, directory 1 holds ImageWidth = 200. -/
def c1writerE : Except WrErr TIFFWriter := do
  let w := TIFFWriter.new .Big
  let w ← w.set_field ImageWidthField 100
  let w ← w.insert_directory_at_index 1
  let w ← w.set_current_directory_index 1
  let w ← w.set_field ImageWidthField 200
  pure w

/-- The writer state `c1writerE` reaches. -/
def c1writer : TIFFWriter :=
  { write_buff := [], endian := .Big,
    ifds := [[(Tag.ImageWidth, ⟨Tag.ImageWidth, 1, [0x00, 0x64], 3⟩)],
             [(Tag.ImageWidth, ⟨Tag.ImageWidth, 1, [0x00, 0xC8], 3⟩)]],
    position := 0, current_index := 1 }

/-- The 44 bytes `c1writer` emits.  Directory 0 occupies bytes 8..25 and its
next-IFD offset field (bytes 22..25) holds 24, while directory 1's IFD
(its entry count) actually begins at byte 26. -/
def c1bytes : List Nat :=
  [0x4D, 0x4D, 0x00, 0x2A, 0x00, 0x00, 0x00, 0x08,
   0x00, 0x01,
   0x01, 0x00, 0x00, 0x03, 0x00, 0x00, 0x00, 0x01, 0x00, 0x64, 0x00, 0x00,
   0x00, 0x00, 0x00, 0x18,
   0x00, 0x01,
   0x01, 0x00, 0x00, 0x03, 0x00, 0x00, 0x00, 0x01, 0x00, 0xC8, 0x00, 0x00,
   0x00, 0x00, 0x00, 0x00]

/-- Iterator over `c1bytes` as `TIFFReader::new` builds it (first IFD offset
8, big endian). -/
def c4iter : IFDIter := IFDIter.new { data := c1bytes, pos := 0 } 8 .Big

/-- The iterator state after yielding directory 0 of `c1bytes`: the cursor
stands at byte 26 and the recorded next-IFD offset is 24. -/
def c4it1 : IFDIter := (IFDIter.next c4iter).2

/-- The writer API chain that stores values under both `Tag::ImageWidth` and
`Tag::Unknown(0x0100)` — two distinct keys of the directory map carrying
the same 16-bit tag number. -/
def c9writerE : Except WrErr TIFFWriter := do
  let w := TIFFWriter.new .Big
  let w ← w.set_directory_field_for_tag Tag.ImageWidth (.Short [170])
  let w ← w.set_directory_field_for_tag (Tag.Unknown 0x0100) (.Short [5])
  pure w

/-- The writer state `c9writerE` reaches. -/
def c9writer : TIFFWriter :=
  { write_buff := [], endian := .Big,
    ifds := [[(Tag.ImageWidth, ⟨Tag.ImageWidth, 1, [0x00, 0xAA], 3⟩),
              (Tag.Unknown 0x0100, ⟨Tag.Unknown 0x0100, 1, [0x00, 0x05], 3⟩)]],
    position := 0, current_index := 0 }

/-- The 38 bytes `c9writer` emits: one IFD with two records, both under tag
number 0x0100. -/
def c9bytes : List Nat :=
  [0x4D, 0x4D, 0x00, 0x2A, 0x00, 0x00, 0x00, 0x08,
   0x00, 0x02,
   0x01, 0x00, 0x00, 0x03, 0x00, 0x00, 0x00, 0x01, 0x00, 0xAA, 0x00, 0x00,
   0x01, 0x00, 0x00, 0x03, 0x00, 0x00, 0x00, 0x01, 0x00, 0x05, 0x00, 0x00,
   0x00, 0x00, 0x00, 0x00]

/-- An ASCII entry (type 2) of a little-endian file whose four inline
payload bytes are `41 00 30 42` — "A", NUL, "0", "B" (the inline slot is
the little-endian byte image of the decoded u32 0x42300041). -/
def c5entry : IFDEntry :=
  { tag := Tag.ImageDescription, value_type := 2, count := 4,
    value_offset := 0x42300041 }

/-- A big-endian Short entry with count 1 whose inline slot holds
`00 AA 00 00` (decoded big-endian: 0x00AA0000), i.e. the single value 170. -/
def c8entry : IFDEntry :=
  { tag := Tag.ImageWidth, value_type := 3, count := 1,
    value_offset := 0x00AA0000 }

/-- An out-of-line payload long enough to push the second directory's start
past `1 << 31`; its length truncates (`as i16`) to 6, so the writer treats
it as out-of-line. -/
def c7payload : List Nat := List.replicate (2 ^ 31 + 6) 0

/-- The queued entry holding `c7payload` (a `Byte` value). -/
def c7entry : WritingEntryPayload :=
  { tag := Tag.Unknown 1000, count := c7payload.length, payload := c7payload,
    value_type := 1 }

/-- The writer API chain producing the oversized model: directory 0 holds
the `2^31 + 6`-byte `Byte` value, directory 1 is empty. -/
def c7writerE : Except WrErr TIFFWriter := do
  let w := TIFFWriter.new .Big
  let w ← w.set_directory_field_for_tag (Tag.Unknown 1000) (.Byte c7payload)
  let w ← w.insert_directory_at_index 1
  pure w

/-- The writer state `c7writerE` reaches. -/
def c7writer : TIFFWriter :=
  { write_buff := [], endian := .Big,
    ifds := [[(Tag.Unknown 1000, c7entry)], []],
    position := 0, current_index := 0 }

/-- A 26-byte big-endian file whose sole entry is `SubfileType` (tag 0x00FF,
type Short, count 1) with inline value 3. -/
def c10bytes : List Nat :=
  [0x4D, 0x4D, 0x00, 0x2A, 0x00, 0x00, 0x00, 0x08,
   0x00, 0x01,
   0x00, 0xFF, 0x00, 0x03, 0x00, 0x00, 0x00, 0x01, 0x00, 0x03, 0x00, 0x00,
   0x00, 0x00, 0x00, 0x00]

/-!  Theorems. -/

/-- Helper for the overflow claim: for any model of two directories whose
first holds a single entry with an out-of-line payload (`toI16 length = 6`
forces the out-of-line branch of `write_ifd_tag`) long enough that the
second directory would start past `1 << 31`, `TIFFWriter::write` takes the
early `return Ok(())` — the model's `aborted`, flushing nothing. -/
theorem write_overflow_aborts (pl : List Nat) (t : Tag) (vt cnt : Nat)
    (h1 : toI16 pl.length = 6) (h2 : 2 ^ 31 ≤ pl.length + 23) :
    TIFFWriter.write
      { write_buff := [], endian := .Big,
        ifds := [[(t, ⟨t, cnt, pl, vt⟩)], []],
        position := 0, current_index := 0 } = .aborted := by
  have hd : ¬ (0 : Int) ≤ 4 - toI16 pl.length := by rw [h1]; decide
  simp only [TIFFWriter.write, writeLoop, write_ifd_tag, write_ifd_tag.go, sortEntries,
    List.insertionSort, List.orderedInsert, tagLe, List.map_cons, List.map_nil,
    List.flatMap_cons, List.flatMap_nil, List.length_cons, List.length_nil,
    List.append_nil, hd]
  norm_num
  intro h
  omega

/-- C1: the writer-API model with two directories (`ImageWidth = 100` in
directory 0, `ImageWidth = 200` in directory 1) writes to `c1bytes`, but
re-reading that stream recovers only **one** directory — the value stored
under `ImageWidth` in directory 1 is not recovered, refuting the
write-then-read round-trip property for every model built through
`set_field` / `set_directory_field_for_tag`.  (The written next-IFD offset
is 24 while directory 1 starts at 26, and the reader additionally seeks
relatively, landing at byte 50, past the end of the 44-byte stream.) -/
theorem claim_C1_roundtrip_loses_directory :
    c1writerE = .ok c1writer ∧
    c1writer.ifds.length = 2 ∧
    TIFFWriter.write c1writer = .flushed c1bytes ∧
    (TIFFReader.new c1bytes).map (fun r => r.ifds.length) = .ok 1 := by
  decide

/-- C2: reading the 26-byte stream
`4D 4D 00 2A 00 00 00 08 00 01 01 00 00 03 00 00 00 01 00 AA 00 00 00 00
00 00` succeeds, reports big endianness and exactly one directory, and the
`ImageWidth` field decodes to 170; and writing the single-field model
`ImageWidth = 170` through a big-endian `TIFFWriter` produces exactly those
26 bytes. -/
theorem claim_C2_minimal_file_roundtrip :
    c2writerE = .ok c2writer ∧
    TIFFWriter.write c2writer = .flushed c2bytes ∧
    (TIFFReader.new c2bytes).map (fun r => (r.endian, r.ifds.length))
      = .ok (.Big, 1) ∧
    (TIFFReader.new c2bytes).map (fun r => r.get_field ImageWidthField)
      = .ok (.ok (some 170)) := by
  decide

/-- C3: in the two-directory stream `c1bytes`, the 32-bit next-IFD offset
emitted after directory 0's entries (bytes 22..25) decodes to 24, but
directory 1's IFD — its 16-bit entry count `00 01` — actually begins at
file offset 26: the writer computes `position + all_big.len() + 1` instead
of `position + 4 + all_big.len()`, so the written offset never equals the
true start of the next IFD. -/
theorem claim_C3_next_ifd_offset_mismatch :
    TIFFWriter.write c1writer = .flushed c1bytes ∧
    (c1bytes.drop 22).take 4 = [0, 0, 0, 24] ∧
    Endian.long_from_bytes .Big ((c1bytes.drop 22).take 4) = 24 ∧
    (c1bytes.drop 26).take 2 = [0, 1] := by
  decide

/-- C4: walking `c1bytes`, the first iteration parses the IFD at offset 8
and records next-IFD offset 24, leaving the cursor at byte 26; the second
iteration then seeks `SeekFrom::Current(24)` — landing at file position
26 + 24 = 50, not at the file-absolute offset 24 — and fails (past the
44-byte end) instead of reading the entry count at 24. -/
theorem claim_C4_iterator_seeks_relatively :
    (IFDIter.next c4iter).1.isSome = true ∧
    c4it1.position = 8 ∧
    c4it1.next_entry = 24 ∧
    c4it1.stream.pos = 26 ∧
    (IFDIter.next c4it1).2.position = 50 ∧
    (IFDIter.next c4it1).1 = none := by
  decide

/-- C5: for the ASCII entry `c5entry` whose payload bytes are
`41 00 30 42` ("A", NUL, "0", "B"), `read_ascii` splits on the byte 0x30
(the ASCII digit zero) and returns the pieces `["A\u0000", "B"]`, whereas
splitting on NUL (byte 0) — what the claim states — would give
`["A", "0B"]`. -/
theorem claim_C5_ascii_splits_on_digit_zero :
    TIFFValue.read_n_bytes { data := [], pos := 0 } c5entry c5entry.count
      = .ok [0x41, 0x00, 0x30, 0x42] ∧
    TIFFValue.read_ascii { data := [], pos := 0 } c5entry
      = .ok [[0x41, 0x00], [0x42]] ∧
    splitOnByte 0 [0x41, 0x00, 0x30, 0x42] = [[0x41], [0x30, 0x42]] := by
  decide

/-- C6: encoding the all-ASCII value `Ascii ["A"]` is **rejected** with an
encoding error (the source's ASCII test is inverted), while the non-ASCII
value `Ascii ["é"]` (bytes C3 A9) is **accepted** and serialised without
any NUL terminator — the exact opposite of the claim on both sides. -/
theorem claim_C6_ascii_encoding_inverted :
    TIFFValue.convert_to_entry (.Ascii [[0x41]]) Tag.ImageDescription .Big
      = .error .EncodingError ∧
    TIFFValue.convert_to_entry (.Ascii [[0xC3, 0xA9]]) Tag.ImageDescription .Big
      = .ok ⟨Tag.ImageDescription, 1, [0xC3, 0xA9], 2⟩ := by
  decide

/-- C7: for the API-constructed model whose first directory holds a
`2^31 + 6`-byte `Byte` payload (so the second directory would start past
`1 << 31`), `TIFFWriter::write` returns `Ok(())` **without flushing
anything** (`aborted`), instead of the out-of-bounds error the claim
requires. -/
theorem claim_C7_overflow_returns_ok_with_no_output :
    c7writerE = .ok c7writer ∧
    TIFFWriter.write c7writer = .aborted := by
  refine ⟨rfl, ?_⟩
  have hl : c7payload.length = 2 ^ 31 + 6 := by
    rw [c7payload, List.length_replicate]
  exact write_overflow_aborts c7payload (Tag.Unknown 1000) 1 c7payload.length
    (by rw [hl]; decide) (by rw [hl]; norm_num)

/-- C8: the big-endian Short entry `c8entry` with `count = 1` decodes to a
value carrying **two** elements, `[170, 0]` — not `entry.count = 1`
elements — because the inline branch of `read_n_bytes` always returns all
four slot bytes regardless of the requested size. -/
theorem claim_C8_inline_decode_ignores_count :
    c8entry.count = 1 ∧
    TIFFValue.new_from_entry { data := c2bytes, pos := 0 } c8entry .Big
      = .ok (.Short [170, 0]) := by
  decide

/-- C9 (counterexample): storing values under both `Tag::ImageWidth` and
`Tag::Unknown(0x0100)` — accepted by the API as two distinct map keys with
the same numeric tag — produces a stream whose IFD at offset 8 carries two
consecutive 12-byte records both with wire tag number 256, so the records
are **not** in strictly ascending tag order. -/
theorem claim_C9_counterexample :
    c9writerE = .ok c9writer ∧
    TIFFWriter.write c9writer = .flushed c9bytes ∧
    wireEntryTag c9bytes .Big 8 0 = 256 ∧
    wireEntryTag c9bytes .Big 8 1 = 256 ∧
    ¬ wireEntryTag c9bytes .Big 8 0 < wireEntryTag c9bytes .Big 8 1 := by
  decide

/-- C9 (amended): the 12-byte entry records of each emitted IFD appear in
ascending (non-decreasing) order of their 16-bit tag numbers — for any
directory map whose payloads carry their own key (the invariant the
writer API maintains), the emission order produced by the sorting step of
`TIFFWriter::write` has non-decreasing `tag_value`s.  Strictness can fail
only when a named tag and `Unknown(n)` with the same numeric value are
both present. -/
theorem claim_C9_amended (d : List (Tag × WritingEntryPayload))
    (h : ∀ p ∈ d, p.2.tag = p.1) :
    List.Sorted (· ≤ ·) ((sortEntries d).map (fun p => p.2.tag.tag_value)) := by
  have hs : List.Sorted tagLe (sortEntries d) :=
    List.sorted_insertionSort tagLe d
  have hmem : ∀ p ∈ sortEntries d, p.2.tag = p.1 := fun p hp =>
    h p ((List.perm_insertionSort tagLe d).subset hp)
  rw [List.Sorted, List.pairwise_map]
  refine hs.imp_of_mem ?_
  intro a b ha hb hab
  rw [hmem a ha, hmem b hb]
  exact hab

/-- Witness for C9 (amended), at the two-entry directory of the
counterexample model. -/
theorem claim_C9_amended_witness :
    List.Sorted (· ≤ ·) ((sortEntries
      [(Tag.ImageWidth, ⟨Tag.ImageWidth, 1, [0x00, 0xAA], 3⟩),
       (Tag.Unknown 0x0100, ⟨Tag.Unknown 0x0100, 1, [0x00, 0x05], 3⟩)]).map
      (fun p => p.2.tag.tag_value)) :=
  claim_C9_amended
    [(Tag.ImageWidth, ⟨Tag.ImageWidth, 1, [0x00, 0xAA], 3⟩),
     (Tag.Unknown 0x0100, ⟨Tag.Unknown 0x0100, 1, [0x00, 0x05], 3⟩)]
    (by decide)

/-- C10: on the well-formed stream `c10bytes` (one `SubfileType` entry,
Short, count 1, value 3), `get_field` does **not** return `None`: decoding
reaches the source's `el[3] == 3` guard on the two-element value
`[3, 0]` and performs an out-of-range index — a panic — refuting the
totality of `get_field` and of `SubfileType::decode_from_value`. -/
theorem claim_C10_get_field_panics :
    (TIFFReader.new c10bytes).map (fun r => r.get_field SubfileTypeField)
      = .ok (.error .panicked) ∧
    SubfileTypeField.decode_from_value (.Short [3, 0]) = .error .panicked := by
  decide

end Tiff
